import Mathlib

/-!
# Verification of the `GaussianCopulaSynthesizer` adapter

Shallow embedding of `src/sdv/single_table/copulas.py`, the single-table
Gaussian-copula synthesizer adapter, together with proofs about its
configuration validation, fitting-time distribution assignment, reporting,
and error behaviour.

The wrapped statistical library (`copulas.multivariate.GaussianMultivariate`
and the univariate distribution classes) is an external opaque collaborator:
it is modelled abstractly, keeping only the structure the adapter observes
(per-column distribution assignment, fitted/unfitted state, per-column
learned parameter dictionaries, serialization via `to_dict`).  Numeric
content of fitting and sampling is abstracted behind an oracle.

Python-level behaviour that the adapter relies on is modelled explicitly:
truthiness (used by `x or default` idioms in `__init__`), `str.replace`
(which replaces every occurrence of the pattern), insertion-ordered
dictionaries (as association lists), and object identity for the mutable
parameter dictionaries (a small heap, so that the deep-copy-on-read
behaviour of `get_learned_distributions` is expressible).
-/

namespace SDV

/-- The univariate distribution classes of the external `copulas.univariate`
module that the adapter maps family names to (`_DISTRIBUTIONS` values). -/
inductive Univariate where
  | GaussianUnivariate
  | BetaUnivariate
  | TruncatedGaussian
  | GammaUnivariate
  | UniformUnivariate
  | GaussianKDE
  deriving DecidableEq, Repr, Inhabited

/-- A non-dictionary Python value, as far as the adapter distinguishes them:
`None`, strings, integers, booleans, the empty list, and instances of
`copulas.univariate` distribution classes. -/
inductive PyAtom where
  | pyNone
  | str (s : String)
  | int (n : Int)
  | bool (b : Bool)
  | emptyList
  | univariateInstance (u : Univariate)
  deriving DecidableEq, Repr, Inhabited

/-- A Python value: an atom or a (string-keyed, insertion-ordered)
dictionary whose values are atoms.  This covers every value the
constructor arguments of the adapter can take in the behaviours under
study. -/
inductive PyVal where
  | atom (a : PyAtom)
  | dict (entries : List (String × PyAtom))
  deriving Repr, Inhabited

instance : DecidableEq PyVal := fun a b =>
  match a, b with
  | .atom x, .atom y =>
    if h : x = y then isTrue (by rw [h]) else isFalse (by simp [h])
  | .atom _, .dict _ => isFalse (by simp)
  | .dict _, .atom _ => isFalse (by simp)
  | .dict x, .dict y =>
    if h : x = y then isTrue (by rw [h]) else isFalse (by simp [h])

/-- Python truthiness of an atom: `None`, `0`, `False`, the empty string and
the empty list are falsy; every other modelled atom is truthy. -/
def PyAtom.truthy : PyAtom → Bool
  | .pyNone => false
  | .str s => !s.isEmpty
  | .int n => n != 0
  | .bool b => b
  | .emptyList => false
  | .univariateInstance _ => true

/-- Python truthiness of a value: a dictionary is truthy iff non-empty. -/
def PyVal.truthy : PyVal → Bool
  | .atom a => a.truthy
  | .dict entries => !entries.isEmpty

/-- Test `isinstance(v, dict)`. -/
def PyVal.isDict : PyVal → Bool
  | .dict _ => true
  | _ => false

/-- Test `isinstance(v, str)`. -/
def PyVal.isStr : PyVal → Bool
  | .atom (.str _) => true
  | _ => false

/-- The Python exceptions (and external-library failure modes) the modelled
code can raise. -/
inductive PyError where
  | valueError (msg : String)
  | typeError (msg : String)
  | attributeError (msg : String)
  | keyError (key : String)
  | notFittedError
  | libraryFitError
  deriving DecidableEq, Repr

/-- Boolean success test on `Except`. -/
def exOk {ε α : Type} : Except ε α → Bool
  | .ok _ => true
  | .error _ => false

/-- Boolean failure test on `Except`. -/
def exErr {ε α : Type} : Except ε α → Bool
  | .ok _ => false
  | .error _ => true

/-- The `_DISTRIBUTIONS` class attribute: the fixed mapping from the six
recognized family names to univariate distribution classes, in source
order. -/
def DISTRIBUTIONS : List (String × Univariate) :=
  [("norm", .GaussianUnivariate),
   ("beta", .BetaUnivariate),
   ("truncnorm", .TruncatedGaussian),
   ("gamma", .GammaUnivariate),
   ("uniform", .UniformUnivariate),
   ("gaussian_kde", .GaussianKDE)]

/-- Embedding of `GaussianCopulaSynthesizer._validate_distribution`:
rejects any value that is not a string, or is a string outside the
recognized set, with a `ValueError`; otherwise returns the distribution
class for the name. -/
def _validate_distribution (distribution : PyVal) : Except PyError Univariate :=
  match distribution with
  | .atom (.str s) =>
    match DISTRIBUTIONS.lookup s with
    | some u => .ok u
    | none => .error (.valueError "Invalid distribution specification.")
  | _ => .error (.valueError "Invalid distribution specification.")

/-- The dictionary comprehension in `__init__` validating every per-column
entry of `numerical_distributions`, in insertion order, keeping field
names. -/
def validateEntries : List (String × PyAtom) → Except PyError (List (String × Univariate))
  | [] => .ok []
  | (field, d) :: rest =>
    match _validate_distribution (.atom d) with
    | .error e => .error e
    | .ok u =>
      match validateEntries rest with
      | .error e => .error e
      | .ok rest1 => .ok ((field, u) :: rest1)

/-- Single-table metadata, as far as the adapter reads it: the
`_columns` mapping from column name to its `sdtype` string. -/
structure Metadata where
  _columns : List (String × String)
  deriving DecidableEq, Repr

/-- A learned per-column parameter dictionary of the external library
(mutable Python dict; numeric parameter values abstracted as integers). -/
structure ParamDict where
  fields : List (String × Int)
  deriving DecidableEq, Repr, Inhabited

/-- Heap address of a mutable parameter dictionary. -/
abbrev Addr := Nat

/-- A heap of mutable parameter dictionaries, with an allocation counter.
Only the parameter dictionaries are tracked as mutable objects: they are
the only objects that could be shared between the model state and the
report returned by `get_learned_distributions`. -/
structure Heap where
  next : Addr
  mem : List (Addr × ParamDict)
  deriving DecidableEq, Repr

/-- The empty heap. -/
def Heap.empty : Heap := ⟨0, []⟩

/-- Allocate a fresh parameter dictionary. -/
def Heap.alloc (h : Heap) (d : ParamDict) : Heap × Addr :=
  (⟨h.next + 1, (h.next, d) :: h.mem⟩, h.next)

/-- Read the dictionary at an address. -/
def Heap.read (h : Heap) (a : Addr) : Option ParamDict :=
  h.mem.lookup a

/-- Overwrite the dictionary at an address (in-place mutation of a Python
dict object). -/
def Heap.write (h : Heap) (a : Addr) (d : ParamDict) : Heap :=
  ⟨h.next, h.mem.map fun p => if p.1 = a then (a, d) else p⟩

/-- The external `copulas.multivariate.GaussianMultivariate` model, as far
as the adapter observes it: the per-column distribution assignment it was
constructed with, and — once the library fit has succeeded — the fitted
column list paired with the addresses of the internal per-column learned
parameter dictionaries. -/
structure GaussianMultivariate where
  distribution : List (String × Univariate)
  fittedColumns : Option (List (String × Addr))
  deriving DecidableEq, Repr

/-- Preprocessed tabular data: column names and rows (numeric cell values
abstracted as integers). -/
structure DataFrame where
  columns : List String
  rows : List (List Int)
  deriving DecidableEq, Repr

/-- Oracle abstracting the numeric internals of the external library fit:
whether fitting the given assignment to the given data fails with a
library-internal numerical error, and the learned parameters of each
column when it succeeds. -/
structure LibOracle where
  fitFails : List (String × Univariate) → DataFrame → Bool
  columnParams : String → DataFrame → ParamDict

/-- Allocation of one fresh learned-parameter dictionary per data column
performed by a successful library fit (rightmost column allocated first;
the allocation order inside the external library is unobservable). -/
def allocColumns (lib : LibOracle) (data : DataFrame) (h : Heap) :
    List String → Heap × List (String × Addr)
  | [] => (h, [])
  | c :: rest =>
    (((allocColumns lib data h rest).1.alloc (lib.columnParams c data)).1,
     (c, ((allocColumns lib data h rest).1.alloc (lib.columnParams c data)).2) ::
       (allocColumns lib data h rest).2)

/-- External library fit (`GaussianMultivariate.fit`): either fails with a
library-internal numerical error, or allocates one fresh learned parameter
dictionary per data column and records the fitted state. -/
def GaussianMultivariate.fit (m : GaussianMultivariate) (data : DataFrame)
    (lib : LibOracle) (h : Heap) : Except PyError (Heap × GaussianMultivariate) :=
  if lib.fitFails m.distribution data then
    .error .libraryFitError
  else
    .ok ((allocColumns lib data h data.columns).1,
      { m with fittedColumns := some (allocColumns lib data h data.columns).2 })

/-- External library sampling (`GaussianMultivariate.sample`): raises on an
unfitted model; on a fitted model returns a table over the fitted columns
(row content abstracted). -/
def GaussianMultivariate.sample (m : GaussianMultivariate) (num_rows : Nat)
    (_conditions : Option (List (String × Int))) : Except PyError DataFrame :=
  match m.fittedColumns with
  | none => .error .notFittedError
  | some cells =>
    .ok ⟨cells.map Prod.fst, List.replicate num_rows (cells.map fun _ => 0)⟩

/-- External library serialization (`GaussianMultivariate.to_dict`): on a
fitted model returns the column list and the list of per-column univariate
parameter dictionaries; conservatively modelled as returning references to
the internal parameter dictionaries (so that any independence of the
report from the model state must come from the adapter's own deep copy). -/
def GaussianMultivariate.to_dict (m : GaussianMultivariate) :
    Option (List String × List Addr) :=
  m.fittedColumns.map fun cells => (cells.map Prod.fst, cells.map Prod.snd)

/-- The `GaussianCopulaSynthesizer` instance state: constructor arguments
stored raw (`default_distribution`, `numerical_distributions`), their
validated counterparts (`_default_distribution`, `_numerical_distributions`),
the wrapped model (`_model`, class attribute `None` until `_fit` runs), and
the fitted flag maintained by the base class. -/
structure GaussianCopulaSynthesizer where
  metadata : Metadata
  enforce_min_max_values : Bool
  enforce_rounding : Bool
  default_distribution : PyVal
  numerical_distributions : List (String × PyAtom)
  _default_distribution : Univariate
  _numerical_distributions : List (String × Univariate)
  _model : Option GaussianMultivariate
  _fitted : Bool
  deriving DecidableEq, Repr

/-- Embedding of the idiom `default_distribution or 'beta'`: a falsy
argument is replaced by the name `beta`. -/
def storedDefault (default_distribution : PyVal) : PyVal :=
  if default_distribution.truthy then default_distribution else .atom (.str "beta")

/-- Embedding of the idiom `numerical_distributions or {}` (as the stored
mapping and as the mapping the validating comprehension iterates): a falsy
argument contributes the empty mapping. -/
def ndStored (numerical_distributions : PyVal) : List (String × PyAtom) :=
  match numerical_distributions with
  | .dict entries => if numerical_distributions.truthy then entries else []
  | _ => []

/-- Embedding of `GaussianCopulaSynthesizer.__init__`.  The base-class
call is modelled only through the `_fitted := false` initial state (the
base class, outside the provided source, owns that flag; per the
specification the instance starts `unfitted`).  Mirrors the Python:
`numerical_distributions` that is truthy and not a dict raises `TypeError`;
`default_distribution or 'beta'` and `numerical_distributions or {}` use
Python truthiness; then the default and every per-column entry are
validated. -/
def GaussianCopulaSynthesizer.init (metadata : Metadata)
    (enforce_min_max_values : Bool := true) (enforce_rounding : Bool := true)
    (numerical_distributions : PyVal := .atom .pyNone)
    (default_distribution : PyVal := .atom .pyNone) :
    Except PyError GaussianCopulaSynthesizer :=
  if numerical_distributions.truthy && !numerical_distributions.isDict then
    .error (.typeError "numerical_distributions can only be None or a dict instance")
  else
    match _validate_distribution (storedDefault default_distribution) with
    | .error e => .error e
    | .ok _default =>
      match validateEntries (ndStored numerical_distributions) with
      | .error e => .error e
      | .ok _numerical =>
        .ok { metadata := metadata
              enforce_min_max_values := enforce_min_max_values
              enforce_rounding := enforce_rounding
              default_distribution := storedDefault default_distribution
              numerical_distributions := ndStored numerical_distributions
              _default_distribution := _default
              _numerical_distributions := _numerical
              _model := none
              _fitted := false }

/-- Python `str.replace('.value', '')` on the character list of a column
name: removes every (leftmost-first, non-overlapping) occurrence of the
substring `.value`, not only a suffix.  Structurally recursive on a fuel
argument; every step consumes at least one character, so starting the fuel
at the list length never exhausts it. -/
def replaceValueChars : Nat → List Char → List Char
  | _, [] => []
  | 0, l => l
  | fuel + 1, c :: rest =>
    if c = '.' ∧ rest.take 5 = ['v', 'a', 'l', 'u', 'e'] then
      replaceValueChars fuel (rest.drop 5)
    else
      c :: replaceValueChars fuel rest

/-- Python `column.replace('.value', '')` on strings. -/
def pyReplaceValue (s : String) : String :=
  ⟨replaceValueChars s.data.length s.data⟩

/-- One iteration of the `_fit` loop building the per-column distribution
assignment: a data column not already present in the accumulating mapping
is appended with the family found under `column.replace('.value', '')` in
`_numerical_distributions`, defaulting to `_default_distribution`. -/
def fitStep (s : GaussianCopulaSynthesizer)
    (acc : List (String × Univariate)) (column : String) :
    List (String × Univariate) :=
  if (acc.lookup column).isSome then acc
  else
    acc ++ [(column,
      (s._numerical_distributions.lookup (pyReplaceValue column)).getD
        s._default_distribution)]

/-- The per-column distribution assignment built by the `_fit` loop:
starting from a deep copy of `_numerical_distributions`, `fitStep` is
folded over the data columns in order. -/
def fitDistributions (s : GaussianCopulaSynthesizer) (columns : List String) :
    List (String × Univariate) :=
  columns.foldl (fitStep s) s._numerical_distributions

/-- Embedding of `GaussianCopulaSynthesizer._fit`: builds the per-column assignment,
replaces `self._model` with a freshly constructed `GaussianMultivariate`,
then runs the library fit (warning suppression has no observable effect in
the model).  Returns the post-state, the post-heap, and the propagated
exception if the library fit raised; note the model replacement happens
before the library call, so it persists even when the fit fails. -/
def GaussianCopulaSynthesizer._fit (s : GaussianCopulaSynthesizer)
    (processed_data : DataFrame) (lib : LibOracle) (h : Heap) :
    GaussianCopulaSynthesizer × Heap × Option PyError :=
  match GaussianMultivariate.fit
      { distribution := fitDistributions s processed_data.columns
        fittedColumns := none } processed_data lib h with
  | .error e =>
    ({ s with _model := some { distribution := fitDistributions s processed_data.columns
                               fittedColumns := none } }, h, some e)
  | .ok (h', m') => ({ s with _model := some m' }, h', none)

/-- Modelled from the spec: the public `fit` entry point of
`BaseSingleTableSynthesizer` (the base class is not part of the provided
source).  Per the specification it invokes `_fit` on the preprocessed data
and the instance becomes `fitted` once `fit` succeeds; on failure the
exception propagates and the flag is not set. -/
def GaussianCopulaSynthesizer.fit (s : GaussianCopulaSynthesizer)
    (processed_data : DataFrame) (lib : LibOracle) (h : Heap) :
    GaussianCopulaSynthesizer × Heap × Option PyError :=
  let (s', h', err) := s._fit processed_data lib h
  (if err.isNone then { s' with _fitted := true } else s', h', err)

/-- The preprocessing transformers the warning hook distinguishes:
`rdt.transformers.OneHotEncoder` versus anything else. -/
inductive Transformer where
  | OneHotEncoder
  | FloatFormatter
  | LabelEncoder
  deriving DecidableEq, Repr

/-- Text of the advisory warning emitted for a categorical column assigned
a `OneHotEncoder` (quotation marks around the column name elided). -/
def oneHotWarning (column : String) : String :=
  "Using a OneHotEncoder transformer for column " ++ column ++
    " may slow down the preprocessing and modeling times."

/-- Embedding of `GaussianCopulaSynthesizer._warn_for_update_transformers`:
for each mapping entry, reads the column sdtype from `self.metadata._columns`
(a `KeyError` if the column is unknown) and collects a warning message
exactly when the sdtype is `categorical` and the transformer is a
`OneHotEncoder`.  The instance state is read, never written; warnings are
returned in mapping order. -/
def GaussianCopulaSynthesizer._warn_for_update_transformers
    (s : GaussianCopulaSynthesizer)
    (column_name_to_transformer : List (String × Transformer)) :
    Except PyError (List String) :=
  match column_name_to_transformer with
  | [] => .ok []
  | (column, transformer) :: rest =>
    match s.metadata._columns.lookup column with
    | none => .error (.keyError column)
    | some sdtype =>
      match s._warn_for_update_transformers rest with
      | .error e => .error e
      | .ok ws =>
        if sdtype = "categorical" ∧ transformer = .OneHotEncoder then
          .ok (oneHotWarning column :: ws)
        else
          .ok ws

/-- Embedding of `GaussianCopulaSynthesizer._sample`: delegates to
`self._model.sample`; when `_model` is still `None` this is the Python
`AttributeError` on `NoneType`. -/
def GaussianCopulaSynthesizer._sample (s : GaussianCopulaSynthesizer)
    (num_rows : Nat) (conditions : Option (List (String × Int)) := none) :
    Except PyError DataFrame :=
  match s._model with
  | none => .error (.attributeError "NoneType object has no attribute sample")
  | some m => m.sample num_rows conditions

/-- The entry built for one column of the report of
`get_learned_distributions`: the reported family value and the address of
the (copied) learned parameter dictionary. -/
structure LearnedEntry where
  distribution : PyVal
  learned_parameters : Addr
  deriving DecidableEq, Repr

/-- Embedding of
`self.numerical_distributions.get(column, self.default_distribution)`:
lookup in the raw stored mapping with the raw stored default. -/
def pyGetDistribution (s : GaussianCopulaSynthesizer) (column : String) : PyVal :=
  match s.numerical_distributions.lookup column with
  | some v => .atom v
  | none => s.default_distribution

/-- Embedding of `deepcopy(parameters['univariates'])`: allocates a fresh copy of each
parameter dictionary in the list, returning the extended heap and the
fresh addresses. -/
def deepcopyAddrs (h : Heap) : List Addr → Heap × List Addr
  | [] => (h, [])
  | a :: rest =>
    ((deepcopyAddrs ((h.alloc ((h.read a).getD default)).1) rest).1,
     (h.alloc ((h.read a).getD default)).2 ::
       (deepcopyAddrs ((h.alloc ((h.read a).getD default)).1) rest).2)

/-- Embedding of `GaussianCopulaSynthesizer.get_learned_distributions`: raises a
`ValueError` before a successful fit; otherwise reads the model's
`to_dict`, deep-copies the univariate parameter dictionaries, and zips the
column list with the copies, reporting for each column the family found in
the raw `numerical_distributions` under the unmodified column name (with
the raw `default_distribution` as fallback) next to the copied learned
parameters. -/
def GaussianCopulaSynthesizer.get_learned_distributions
    (s : GaussianCopulaSynthesizer) (h : Heap) :
    Except PyError (Heap × List (String × LearnedEntry)) :=
  if s._fitted = false then
    .error (.valueError
      "Distributions have not been learned yet. Please fit your model first using fit")
  else
    match s._model with
    | none => .error (.attributeError "NoneType object has no attribute to_dict")
    | some m =>
      match m.to_dict with
      | none => .error .notFittedError
      | some (columns, univariateAddrs) =>
        let (h1, univariates) := deepcopyAddrs h univariateAddrs
        .ok (h1, (columns.zip univariates).map fun p =>
          (p.1, { distribution := pyGetDistribution s p.1
                  learned_parameters := p.2 }))

/-- Strip one trailing `.value` suffix from a column name, and only a
suffix — the operation the specification describes for the fitting step
(to be compared with the embedding `pyReplaceValue` of the source, which
removes every occurrence). -/
def stripValueSuffix (c : String) : String :=
  if c.data.drop (c.data.length - 6) = ['.', 'v', 'a', 'l', 'u', 'e'] then
    ⟨c.data.take (c.data.length - 6)⟩
  else c

/-- The per-column distribution-family assignment exactly as the
specification sentence for the fitting step words it: explicit override if
the column itself is configured; else the override configured for the
column name after stripping a `.value` suffix, when such a configured
field exists; else the default family.  Written to be compared with
`fitDistributions`, the embedding of the source. -/
def specFitDistributions (s : GaussianCopulaSynthesizer) (columns : List String) :
    List (String × Univariate) :=
  columns.foldl
    (fun acc column =>
      if (acc.lookup column).isSome then acc
      else
        acc ++ [(column,
          (s._numerical_distributions.lookup (stripValueSuffix column)).getD
            s._default_distribution)])
    s._numerical_distributions

/-- The family that a column ends up assigned to by the `_fit` loop:
the explicit override when the column name itself is configured, else the
override found under `column.replace('.value', '')`, else the default. -/
def assignedFamily (s : GaussianCopulaSynthesizer) (column : String) : Univariate :=
  match s._numerical_distributions.lookup column with
  | some u => u
  | none =>
    (s._numerical_distributions.lookup (pyReplaceValue column)).getD
      s._default_distribution

/-- An instance on which no `fit` has succeeded: the fitted flag is unset
and whatever object `_model` holds (none at construction; a freshly
constructed, never-successfully-fitted model after a failed `_fit`) is not
fitted.  Both reachable unfitted shapes satisfy this. -/
def Unfitted (s : GaussianCopulaSynthesizer) : Prop :=
  s._fitted = false ∧ ∀ m, s._model = some m → m.fittedColumns = none

instance (s : GaussianCopulaSynthesizer) : Decidable (Unfitted s) := by
  unfold Unfitted
  cases s._model <;> exact inferInstance

/-- Column names of the fitted model inside an instance (empty when there
is no fitted model). -/
def modelColumns (s : GaussianCopulaSynthesizer) : List String :=
  match s._model with
  | some m =>
    match m.fittedColumns with
    | some cells => cells.map Prod.fst
    | none => []
  | none => []

/-- Addresses of the internal learned-parameter dictionaries of the fitted
model inside an instance. -/
def modelAddrs (s : GaussianCopulaSynthesizer) : List Addr :=
  match s._model with
  | some m =>
    match m.fittedColumns with
    | some cells => cells.map Prod.snd
    | none => []
  | none => []

/-- Every internal parameter-dictionary address of the instance has been
allocated below the heap's allocation counter (true of every heap/instance
pair produced by `fit`). -/
def AddrsValid (s : GaussianCopulaSynthesizer) (h : Heap) : Prop :=
  ∀ a ∈ modelAddrs s, a < h.next

instance (s : GaussianCopulaSynthesizer) (h : Heap) : Decidable (AddrsValid s h) :=
  inferInstanceAs (Decidable (∀ a ∈ modelAddrs s, a < h.next))

/-- Structural value of a report: each entry's column, reported family,
and the contents of its learned-parameter dictionary read from the heap.
Two reports are structurally equal when their renderings agree. -/
def renderResult (h : Heap) (res : List (String × LearnedEntry)) :
    List (String × PyVal × List (String × Int)) :=
  res.map fun p =>
    (p.1, p.2.distribution, ((h.read p.2.learned_parameters).getD default).fields)

/-- Structural value of the report a call to `get_learned_distributions`
would produce on the given instance and heap (`none` when the call
raises). -/
def reportValue (s : GaussianCopulaSynthesizer) (h : Heap) :
    Option (List (String × PyVal × List (String × Int))) :=
  match s.get_learned_distributions h with
  | .ok (h', res) => some (renderResult h' res)
  | .error _ => none

/-- The structural value the report of a fitted instance is expected to
carry: one entry per model column, with the raw-name family lookup and the
contents of the model's own learned-parameter dictionary read directly
from the given heap. -/
def baseRender (s : GaussianCopulaSynthesizer) (h : Heap) :
    List (String × PyVal × List (String × Int)) :=
  match s._model with
  | some m =>
    match m.fittedColumns with
    | some cells =>
      cells.map fun q =>
        (q.1, pyGetDistribution s q.1, ((h.read q.2).getD default).fields)
    | none => []
  | none => []

/-- Condition under which the hook warns about one mapping entry: the
column's sdtype is `categorical` and the chosen transformer is a
`OneHotEncoder`. -/
def warnTriggers (s : GaussianCopulaSynthesizer) (p : String × Transformer) : Bool :=
  decide (s.metadata._columns.lookup p.1 = some "categorical") &&
    decide (p.2 = Transformer.OneHotEncoder)

/-! ## Concrete instances used by witnesses -/

/-- A concrete instance with the per-column override `gamma` configured
under the field `ab` and the default `beta`; exactly the instance returned
by construction with those arguments (see `sampleSynthAB_reachable`). -/
def sampleSynthAB : GaussianCopulaSynthesizer :=
  { metadata := ⟨[("a.valueb", "numerical")]⟩
    enforce_min_max_values := true
    enforce_rounding := true
    default_distribution := .atom (.str "beta")
    numerical_distributions := [("ab", .str "gamma")]
    _default_distribution := .BetaUnivariate
    _numerical_distributions := [("ab", .GammaUnivariate)]
    _model := none
    _fitted := false }

/-- A concrete instance with the override `gamma` configured under the
field `x`, fitted below on a table whose only column is `x.value`;
exactly the instance returned by construction with those arguments (see
`xSynth0_reachable`). -/
def xSynth0 : GaussianCopulaSynthesizer :=
  { metadata := ⟨[("x.value", "numerical")]⟩
    enforce_min_max_values := true
    enforce_rounding := true
    default_distribution := .atom (.str "beta")
    numerical_distributions := [("x", .str "gamma")]
    _default_distribution := .BetaUnivariate
    _numerical_distributions := [("x", .GammaUnivariate)]
    _model := none
    _fitted := false }

/-- A concrete oracle for the external library on which fitting always
succeeds and every column learns the parameters `loc := 3`. -/
def xLib : LibOracle := ⟨fun _ _ => false, fun _ _ => ⟨[("loc", 3)]⟩⟩

/-- A concrete oracle for the external library whose fit always fails
with the library-internal numerical error. -/
def failLib : LibOracle := ⟨fun _ _ => true, fun _ _ => ⟨[("loc", 3)]⟩⟩

/-- A concrete fit input whose only column is `x.value`. -/
def xData : DataFrame := ⟨["x.value"], [[1], [2]]⟩

/-- The concrete instance after a successful fit. -/
def xSynth : GaussianCopulaSynthesizer := (xSynth0.fit xData xLib Heap.empty).1

/-- The concrete heap after the fit. -/
def xHeap : Heap := (xSynth0.fit xData xLib Heap.empty).2.1

/-- The concrete entry `get_learned_distributions` reports for `x.value`. -/
def xEntry : LearnedEntry :=
  { distribution := .atom (.str "beta"), learned_parameters := 1 }

/-- The concrete heap returned by the first report on the fitted concrete
instance: the model's dictionary at address 0, its copy at address 1. -/
def xHeapOut : Heap := ⟨2, [(1, ⟨[("loc", 3)]⟩), (0, ⟨[("loc", 3)]⟩)]⟩

/-- A concrete instance whose metadata has a numerical column `a` and
categorical columns `c` and `d`. -/
def wSynth : GaussianCopulaSynthesizer :=
  { metadata := ⟨[("a", "numerical"), ("c", "categorical"), ("d", "categorical")]⟩
    enforce_min_max_values := true
    enforce_rounding := true
    default_distribution := .atom (.str "beta")
    numerical_distributions := []
    _default_distribution := .BetaUnivariate
    _numerical_distributions := []
    _model := none
    _fitted := false }

/-! ## Helper lemmas -/

theorem lookup_append_some {α β : Type} [BEq α] {l1 : List (α × β)}
    (l2 : List (α × β)) {c : α} {u : β} (h : l1.lookup c = some u) :
    (l1 ++ l2).lookup c = some u := by
  induction l1 with
  | nil => simp [List.lookup] at h
  | cons e rest ih =>
    obtain ⟨k, b⟩ := e
    rw [List.cons_append, List.lookup_cons] at *
    cases hk : c == k with
    | true => rw [hk] at h; exact h
    | false => rw [hk] at h; exact ih h

theorem lookup_append_none {α β : Type} [BEq α] {l1 : List (α × β)}
    (l2 : List (α × β)) {c : α} (h : l1.lookup c = none) :
    (l1 ++ l2).lookup c = l2.lookup c := by
  induction l1 with
  | nil => simp
  | cons e rest ih =>
    obtain ⟨k, b⟩ := e
    rw [List.cons_append, List.lookup_cons] at *
    cases hk : c == k with
    | true => rw [hk] at h; cases h
    | false => rw [hk] at h; exact ih h

/-- Folding `fitStep` never changes an existing binding: the loop only
appends columns that are absent, and appends at the end. -/
theorem fitStep_foldl_preserve (s : GaussianCopulaSynthesizer) (c : String)
    (u : Univariate) (cols : List String) :
    ∀ acc : List (String × Univariate), acc.lookup c = some u →
      (cols.foldl (fitStep s) acc).lookup c = some u := by
  induction cols with
  | nil => intro acc h; simpa using h
  | cons c1 rest ih =>
    intro acc h
    rw [List.foldl_cons]
    apply ih
    unfold fitStep
    by_cases hs : (acc.lookup c1).isSome = true
    · rw [if_pos hs]; exact h
    · rw [if_neg hs]; exact lookup_append_some _ h

/-- Characterization of the binding the `_fit` loop gives to a column of
the data: the binding already present in the starting mapping if any, else
the family found under the `.value`-replaced name, else the default. -/
theorem fitStep_foldl_lookup (s : GaussianCopulaSynthesizer) (c : String)
    (cols : List String) :
    ∀ acc : List (String × Univariate), c ∈ cols →
      (cols.foldl (fitStep s) acc).lookup c =
        some ((acc.lookup c).getD
          ((s._numerical_distributions.lookup (pyReplaceValue c)).getD
            s._default_distribution)) := by
  induction cols with
  | nil => intro acc h; simp at h
  | cons c1 rest ih =>
    intro acc hc
    rw [List.foldl_cons]
    by_cases he : c1 = c
    · subst he
      cases hl : acc.lookup c1 with
      | some u =>
        have hstep : (fitStep s acc c1).lookup c1 = some u := by
          unfold fitStep
          rw [if_pos (by rw [hl]; rfl)]
          exact hl
        rcases List.mem_cons.mp hc with _ | hc1
        · rcases Decidable.em (c1 ∈ rest) with hin | hout
          · rw [ih _ hin, hstep]
          · rw [fitStep_foldl_preserve s c1 u rest _ hstep]
            simp [hl]
        · rw [ih _ hc1, hstep]
      | none =>
        have hstep : (fitStep s acc c1).lookup c1 =
            some ((s._numerical_distributions.lookup (pyReplaceValue c1)).getD
              s._default_distribution) := by
          unfold fitStep
          rw [if_neg (by rw [hl]; simp)]
          rw [lookup_append_none _ hl, List.lookup_cons]
          simp
        rcases Decidable.em (c1 ∈ rest) with hin | hout
        · rw [ih _ hin, hstep]
          simp
        · rw [fitStep_foldl_preserve s c1 _ rest _ hstep]
          simp [hl]
    · have hlk : (fitStep s acc c1).lookup c = acc.lookup c := by
        unfold fitStep
        by_cases hs : (acc.lookup c1).isSome = true
        · rw [if_pos hs]
        · rw [if_neg hs]
          cases hl : acc.lookup c with
          | some u => exact lookup_append_some _ hl
          | none =>
            rw [lookup_append_none _ hl, List.lookup_cons]
            rw [show (c == c1) = false from beq_false_of_ne fun hcc => he hcc.symm]
            rfl
      have hc1 : c ∈ rest := by
        rcases List.mem_cons.mp hc with hcc | hcc
        · exact absurd hcc.symm he
        · exact hcc
      rw [ih _ hc1, hlk]

theorem ndStored_dict (entries : List (String × PyAtom)) :
    ndStored (.dict entries) = entries := by
  cases entries <;> simp [ndStored, PyVal.truthy]

theorem _validate_distribution_not_str {v : PyVal} (hv : v.isStr = false) :
    exErr (_validate_distribution v) = true := by
  cases v with
  | atom a => cases a <;> simp_all [_validate_distribution, PyVal.isStr, exErr]
  | dict entries => simp [_validate_distribution, exErr]

theorem _validate_distribution_unrecognized {name : String}
    (hname : DISTRIBUTIONS.lookup name = none) :
    exErr (_validate_distribution (.atom (.str name))) = true := by
  simp [_validate_distribution, hname, exErr]

theorem validateEntries_error_of_mem {entries : List (String × PyAtom)}
    {f : String} {a : PyAtom} (hmem : (f, a) ∈ entries)
    (hbad : exErr (_validate_distribution (.atom a)) = true) :
    exErr (validateEntries entries) = true := by
  induction entries with
  | nil => simp at hmem
  | cons e rest ih =>
    obtain ⟨f1, a1⟩ := e
    rcases List.mem_cons.mp hmem with heq | hmem1
    · obtain ⟨hf, ha⟩ := Prod.mk.injEq .. ▸ heq
      subst ha
      simp only [validateEntries]
      cases hv : _validate_distribution (.atom a) with
      | error e => simp [exErr]
      | ok u => rw [hv] at hbad; simp [exErr] at hbad
    · simp only [validateEntries]
      cases hv : _validate_distribution (.atom a1) with
      | error e => simp [exErr]
      | ok u =>
        cases hr : validateEntries rest with
        | error e => simp [exErr]
        | ok l =>
          have := ih hmem1
          rw [hr] at this
          simp [exErr] at this

/-- Characterization of the failure of `__init__`: it fails exactly when
the truthy-non-dict guard fires, or validating the stored default fails,
or validating some stored per-column entry fails. -/
theorem init_error_iff (md : Metadata) (emm er : Bool) (nd dd : PyVal) :
    exErr (GaussianCopulaSynthesizer.init md emm er nd dd) =
      ((nd.truthy && !nd.isDict) ||
       exErr (_validate_distribution (storedDefault dd)) ||
       exErr (validateEntries (ndStored nd))) := by
  unfold GaussianCopulaSynthesizer.init
  by_cases hg : (nd.truthy && !nd.isDict) = true
  · rw [if_pos hg, hg]
    simp [exErr]
  · have hg' := eq_false_of_ne_true hg
    rw [if_neg hg, hg']
    cases hv : _validate_distribution (storedDefault dd) with
    | error e => simp [exErr]
    | ok u =>
      cases hr : validateEntries (ndStored nd) with
      | error e => simp [exErr]
      | ok l => simp [exErr]

theorem sampleSynthAB_reachable :
    GaussianCopulaSynthesizer.init ⟨[("a.valueb", "numerical")]⟩ true true
      (.dict [("ab", .str "gamma")]) (.atom (.str "beta")) = .ok sampleSynthAB := by
  rfl

/-! ## Claim C1 -/

/-- C1 is refuted on the code: constructing with the default distribution
set to the empty string — a family name outside the recognized set — does
not fail: `default_distribution or 'beta'` treats the falsy empty string
as absent, silently replacing it with `beta`. -/
theorem C1_counterexample :
    DISTRIBUTIONS.lookup "" = none ∧
    exOk (GaussianCopulaSynthesizer.init ⟨[("a", "numerical")]⟩ true true
      (.atom .pyNone) (.atom (.str ""))) = true := by decide

/-- C1 (amended): constructing the adapter with a non-empty default
distribution family name outside the recognized set, or with any
per-column distribution family name outside the recognized set, fails
with a configuration error (and in the `Except` model no instance is
returned at all, so no partially validated instance escapes).  Only the
empty-string default escapes, being falsy and replaced by `beta`. -/
theorem C1_theorem (md : Metadata) (emm er : Bool) (nd dd : PyVal)
    (hbad :
      (∃ name : String, dd = .atom (.str name) ∧ name.isEmpty = false ∧
        DISTRIBUTIONS.lookup name = none) ∨
      (∃ entries f name, nd = .dict entries ∧ (f, PyAtom.str name) ∈ entries ∧
        DISTRIBUTIONS.lookup name = none)) :
    exErr (GaussianCopulaSynthesizer.init md emm er nd dd) = true := by
  rw [init_error_iff]
  rcases hbad with ⟨name, hdd, hne, hlook⟩ | ⟨entries, f, name, hnd, hmem, hlook⟩
  · subst hdd
    have hsd : storedDefault (.atom (.str name)) = .atom (.str name) := by
      simp [storedDefault, PyVal.truthy, PyAtom.truthy, hne]
    rw [hsd]
    simp [_validate_distribution_unrecognized hlook]
  · subst hnd
    have h1 : exErr (validateEntries (ndStored (.dict entries))) = true := by
      rw [ndStored_dict]
      exact validateEntries_error_of_mem hmem
        (_validate_distribution_unrecognized hlook)
    simp [h1]

/-- Witness for C1: a per-column family name `bogus` outside the
recognized set makes construction fail. -/
theorem C1_witness :
    exErr (GaussianCopulaSynthesizer.init ⟨[("a", "numerical")]⟩ true true
      (.dict [("a", .str "bogus")]) (.atom .pyNone)) = true :=
  C1_theorem ⟨[("a", "numerical")]⟩ true true (.dict [("a", .str "bogus")])
    (.atom .pyNone)
    (Or.inr ⟨[("a", .str "bogus")], "a", "bogus", rfl, by decide, by decide⟩)

/-! ## Claim C7 -/

/-- C7 is refuted on the code: `numerical_distributions=[]` — provided,
and not a mapping — does not fail: the guard
`if numerical_distributions and not isinstance(numerical_distributions, dict)`
lets every falsy non-mapping through, and `numerical_distributions or {}`
then stores the empty mapping. -/
theorem C7_counterexample :
    (PyVal.atom .emptyList).isDict = false ∧
    PyVal.atom .emptyList ≠ PyVal.atom .pyNone ∧
    exOk (GaussianCopulaSynthesizer.init ⟨[("a", "numerical")]⟩ true true
      (.atom .emptyList) (.atom .pyNone)) = true := by decide

/-- C7 (amended): for every construction in which
`numerical_distributions` is provided as a truthy value that is not a
mapping, construction fails at construction time with the `TypeError`
configuration error; a falsy non-mapping is treated as absent. -/
theorem C7_theorem (md : Metadata) (emm er : Bool) (nd dd : PyVal)
    (htruthy : nd.truthy = true) (hdict : nd.isDict = false) :
    GaussianCopulaSynthesizer.init md emm er nd dd =
      .error (.typeError "numerical_distributions can only be None or a dict instance") := by
  unfold GaussianCopulaSynthesizer.init
  rw [htruthy, hdict]
  simp

/-- Witness for C7: a truthy non-mapping (the integer `5`) makes
construction fail with the `TypeError`. -/
theorem C7_witness :
    GaussianCopulaSynthesizer.init ⟨[]⟩ true true (.atom (.int 5)) (.atom .pyNone) =
      .error (.typeError "numerical_distributions can only be None or a dict instance") :=
  C7_theorem ⟨[]⟩ true true (.atom (.int 5)) (.atom .pyNone) (by decide) (by decide)

/-! ## Claim C10 -/

/-- C10 is refuted on the code: the non-string value `False` passed as the
default distribution does not make construction fail — being falsy, it is
replaced by `beta` before validation ever sees it. -/
theorem C10_counterexample :
    (PyVal.atom (.bool false)).isStr = false ∧
    exOk (GaussianCopulaSynthesizer.init ⟨[("a", "numerical")]⟩ true true
      (.atom .pyNone) (.atom (.bool false))) = true := by decide

/-- C10 (amended): `_validate_distribution` rejects every non-string
specification; consequently every truthy non-string default — including an
actual copulas univariate instance — and every non-string per-column
override make construction fail.  Only falsy non-string defaults escape,
being replaced by `beta`. -/
theorem C10_theorem (md : Metadata) (emm er : Bool) (nd dd v : PyVal)
    (entries : List (String × PyAtom)) (f : String) (a : PyAtom) :
    (v.isStr = false → exErr (_validate_distribution v) = true) ∧
    (dd.truthy = true → dd.isStr = false →
      exErr (GaussianCopulaSynthesizer.init md emm er nd dd) = true) ∧
    ((f, a) ∈ entries → (PyVal.atom a).isStr = false →
      exErr (GaussianCopulaSynthesizer.init md emm er (.dict entries) dd) = true) := by
  refine ⟨fun hv => _validate_distribution_not_str hv, fun htr hstr => ?_, fun hmem hstr => ?_⟩
  · rw [init_error_iff]
    have hsd : storedDefault dd = dd := by simp [storedDefault, htr]
    rw [hsd]
    simp [_validate_distribution_not_str hstr]
  · rw [init_error_iff]
    have h1 : exErr (validateEntries (ndStored (.dict entries))) = true := by
      rw [ndStored_dict]
      exact validateEntries_error_of_mem hmem (_validate_distribution_not_str hstr)
    simp [h1]

/-- Witness for C10: a univariate instance is rejected by
`_validate_distribution`, as the default, and as a per-column override. -/
theorem C10_witness :
    exErr (_validate_distribution (.atom (.univariateInstance .BetaUnivariate))) = true ∧
    exErr (GaussianCopulaSynthesizer.init ⟨[]⟩ true true (.atom .pyNone)
      (.atom (.univariateInstance .BetaUnivariate))) = true ∧
    exErr (GaussianCopulaSynthesizer.init ⟨[]⟩ true true
      (.dict [("a", .univariateInstance .GaussianKDE)]) (.atom .pyNone)) = true :=
  ⟨(C10_theorem ⟨[]⟩ true true (.atom .pyNone)
      (.atom (.univariateInstance .BetaUnivariate))
      (.atom (.univariateInstance .BetaUnivariate))
      [("a", .univariateInstance .GaussianKDE)] "a"
      (.univariateInstance .GaussianKDE)).1 (by decide),
   (C10_theorem ⟨[]⟩ true true (.atom .pyNone)
      (.atom (.univariateInstance .BetaUnivariate))
      (.atom (.univariateInstance .BetaUnivariate))
      [("a", .univariateInstance .GaussianKDE)] "a"
      (.univariateInstance .GaussianKDE)).2.1 (by decide) (by decide),
   (C10_theorem ⟨[]⟩ true true (.atom .pyNone) (.atom .pyNone) (.atom .pyNone)
      [("a", .univariateInstance .GaussianKDE)] "a"
      (.univariateInstance .GaussianKDE)).2.2 (by decide) (by decide)⟩

/-! ## Claim C2 -/

/-- C2 as worded is refuted on the code: the fitting-time lookup does not
strip a `.value` suffix, it removes every occurrence of the substring
`.value` (Python `str.replace`).  For the column `a.valueb` — which has no
`.value` suffix, so the claimed assignment would use the default `beta` —
the code strips the interior `.value`, finds the override configured under
`ab`, and assigns `gamma`. -/
theorem C2_counterexample :
    pyReplaceValue "a.valueb" = "ab" ∧
    stripValueSuffix "a.valueb" = "a.valueb" ∧
    (fitDistributions sampleSynthAB ["a.valueb"]).lookup "a.valueb" =
      some .GammaUnivariate ∧
    (specFitDistributions sampleSynthAB ["a.valueb"]).lookup "a.valueb" =
      some .BetaUnivariate ∧
    fitDistributions sampleSynthAB ["a.valueb"] ≠
      specFitDistributions sampleSynthAB ["a.valueb"] := by
  decide

/-- C2 (amended): for every fit input, the per-column family assignment
used to build the joint model binds every column of the fit input to: the
explicit per-column override when the column name itself is configured;
otherwise the override configured for the column name after removing every
occurrence of the substring `.value` (not only a suffix), when such a
configured field exists; otherwise the default family. -/
theorem C2_theorem (s : GaussianCopulaSynthesizer) (columns : List String)
    (c : String) (hc : c ∈ columns) :
    (fitDistributions s columns).lookup c = some (assignedFamily s c) := by
  rw [fitDistributions, fitStep_foldl_lookup s c columns s._numerical_distributions hc]
  cases hl : s._numerical_distributions.lookup c <;> simp [assignedFamily, hl]

/-- Witness for C2: on the concrete instance, the column `a.valueb` of the
fit input is bound, and to the family `assignedFamily` describes. -/
theorem C2_witness :
    (fitDistributions sampleSynthAB ["a.valueb", "z"]).lookup "z" =
      some (assignedFamily sampleSynthAB "z") :=
  C2_theorem sampleSynthAB ["a.valueb", "z"] "z" (by decide)

/-! ## Claim C3 -/

/-- Number of fresh addresses returned by the deep copy. -/
theorem deepcopyAddrs_length (h : Heap) (l : List Addr) :
    ((deepcopyAddrs h l).2).length = l.length := by
  induction l generalizing h with
  | nil => rfl
  | cons a rest ih => simp [deepcopyAddrs, Heap.alloc, ih]

/-- Inversion of a successful `get_learned_distributions` call: the
instance is fitted, its model is fitted, the returned heap is the one the
deep copy produced, and the result is the zip of the model's columns with
the fresh copies, each column tagged with the raw-name family lookup. -/
theorem get_learned_ok_inv {s : GaussianCopulaSynthesizer} {h h' : Heap}
    {res : List (String × LearnedEntry)}
    (hcall : s.get_learned_distributions h = .ok (h', res)) :
    s._fitted = true ∧
    ∃ m cells, s._model = some m ∧ m.fittedColumns = some cells ∧
      h' = (deepcopyAddrs h (cells.map Prod.snd)).1 ∧
      res = ((cells.map Prod.fst).zip (deepcopyAddrs h (cells.map Prod.snd)).2).map
        (fun p => (p.1, { distribution := pyGetDistribution s p.1
                          learned_parameters := p.2 })) := by
  unfold GaussianCopulaSynthesizer.get_learned_distributions at hcall
  by_cases hf : s._fitted = false
  · rw [if_pos hf] at hcall; cases hcall
  · rw [if_neg hf] at hcall
    have hft : s._fitted = true := by revert hf; cases s._fitted <;> simp
    cases hm : s._model with
    | none =>
      simp only [hm] at hcall
      cases hcall
    | some m =>
      simp only [hm] at hcall
      cases hfc : m.fittedColumns with
      | none =>
        simp only [GaussianMultivariate.to_dict, hfc, Option.map_none'] at hcall
        cases hcall
      | some cells =>
        simp only [GaussianMultivariate.to_dict, hfc, Option.map_some'] at hcall
        simp only [Except.ok.injEq, Prod.mk.injEq] at hcall
        exact ⟨hft, m, cells, rfl, hfc, hcall.1.symm, hcall.2.symm⟩

/-- Shape of a successful report: the returned columns are exactly the
model's columns, and every entry's reported family is the raw-name lookup
`pyGetDistribution` applied to the entry's column name. -/
theorem get_learned_ok_shape {s : GaussianCopulaSynthesizer} {h h' : Heap}
    {res : List (String × LearnedEntry)}
    (hcall : s.get_learned_distributions h = .ok (h', res)) :
    res.map Prod.fst = modelColumns s ∧
    ∀ p ∈ res, (p : String × LearnedEntry).2.distribution = pyGetDistribution s p.1 := by
  obtain ⟨hft, m, cells, hm, hfc, hh', hres⟩ := get_learned_ok_inv hcall
  subst hres
  constructor
  · rw [show modelColumns s = cells.map Prod.fst by simp [modelColumns, hm, hfc]]
    rw [List.map_map]
    have h1 : (Prod.fst ∘ fun p : String × Addr =>
        (p.1, ({ distribution := pyGetDistribution s p.1
                 learned_parameters := p.2 } : LearnedEntry))) = Prod.fst := rfl
    rw [h1, List.map_fst_zip]
    rw [deepcopyAddrs_length]
    simp
  · intro p hp
    simp only [List.mem_map] at hp
    obtain ⟨q, hq, hpq⟩ := hp
    rw [← hpq]

/-- C3: the reporting lookup of `get_learned_distributions` takes the
unmodified column name.  For a modeled column named `x.value` whose
override is configured under `x` (and `x.value` itself is not configured),
the report's entry carries the raw default family, while the fitting
assignment for the same column is the override — the observable asymmetry
between fitting and reporting. -/
theorem C3_theorem (s : GaussianCopulaSynthesizer) (h h' : Heap) (x : String)
    (u : Univariate) (columns : List String)
    (res : List (String × LearnedEntry)) (entry : LearnedEntry)
    (hov : s._numerical_distributions.lookup x = some u)
    (hnov : s._numerical_distributions.lookup (x ++ ".value") = none)
    (hrep : pyReplaceValue (x ++ ".value") = x)
    (hraw : s.numerical_distributions.lookup (x ++ ".value") = none)
    (hc : (x ++ ".value") ∈ columns)
    (hcall : s.get_learned_distributions h = .ok (h', res))
    (hentry : (x ++ ".value", entry) ∈ res) :
    (fitDistributions s columns).lookup (x ++ ".value") = some u ∧
    entry.distribution = s.default_distribution := by
  constructor
  · rw [fitDistributions,
      fitStep_foldl_lookup s (x ++ ".value") columns s._numerical_distributions hc,
      hnov, hrep, hov]
    rfl
  · have := (get_learned_ok_shape hcall).2 (x ++ ".value", entry) hentry
    rw [this]
    simp [pyGetDistribution, hraw]

theorem xSynth0_reachable :
    GaussianCopulaSynthesizer.init ⟨[("x.value", "numerical")]⟩ true true
      (.dict [("x", .str "gamma")]) (.atom .pyNone) = .ok xSynth0 := by rfl

/-- Witness for C3: on the fitted concrete instance, the fitting
assignment for column `x.value` is the override `gamma`, while the
reported family for the same column is the raw default `beta`. -/
theorem C3_witness :
    (fitDistributions xSynth ["x.value"]).lookup "x.value" =
      some .GammaUnivariate ∧
    xEntry.distribution = xSynth.default_distribution :=
  C3_theorem xSynth xHeap ⟨2, [(1, ⟨[("loc", 3)]⟩), (0, ⟨[("loc", 3)]⟩)]⟩ "x"
    .GammaUnivariate ["x.value"] [("x.value", xEntry)] xEntry
    (by decide) (by decide) (by decide) (by decide) (by decide)
    (by rfl) (by decide)

/-! ## Claim C4 -/

/-- C4: on every unfitted instance, `get_learned_distributions` fails with
the usage-sequencing `ValueError`, and `_sample` fails (the `None` model
has no `sample` attribute; a never-successfully-fitted model raises the
library's not-fitted error) — neither ever returns a result. -/
theorem C4_theorem (s : GaussianCopulaSynthesizer) (h : Heap) (num_rows : Nat)
    (conditions : Option (List (String × Int))) (hu : Unfitted s) :
    s.get_learned_distributions h =
      .error (.valueError
        "Distributions have not been learned yet. Please fit your model first using fit") ∧
    exErr (s._sample num_rows conditions) = true := by
  obtain ⟨hf, hm⟩ := hu
  constructor
  · unfold GaussianCopulaSynthesizer.get_learned_distributions
    rw [if_pos hf]
  · unfold GaussianCopulaSynthesizer._sample
    cases hmm : s._model with
    | none => rfl
    | some m => simp [GaussianMultivariate.sample, hm m hmm, exErr]

/-- Witness for C4: both calls fail on a concrete freshly constructed
instance. -/
theorem C4_witness :
    sampleSynthAB.get_learned_distributions Heap.empty =
      .error (.valueError
        "Distributions have not been learned yet. Please fit your model first using fit") ∧
    exErr (sampleSynthAB._sample 5 none) = true :=
  C4_theorem sampleSynthAB Heap.empty 5 none (by decide)

/-! ## Claim C8 -/

/-- The fit-time distribution assignment ignores the stored model: the
loop reads only the validated configuration. -/
theorem fitDistributions_model_indep (s : GaussianCopulaSynthesizer)
    (cols : List String) :
    fitDistributions { s with _model := none } cols = fitDistributions s cols := rfl

/-- C8: `_fit` always replaces `_model` with a freshly constructed joint
model — the post-state model is the same whatever model was stored before
(first conjunct), and it carries the newly computed per-column assignment
(second conjunct).  Nothing in `_fit` can fail before this replacement, so
when the library fit fails the error propagates unchanged (no retry), the
fitted flag is untouched, and the instance is left holding a
never-successfully-fitted model on which sampling fails (third conjunct);
when the library fit succeeds no error is reported (fourth conjunct). -/
theorem C8_theorem (s : GaussianCopulaSynthesizer) (data : DataFrame)
    (lib : LibOracle) (h : Heap) :
    ((s._fit data lib h).1._model =
      (({ s with _model := none } : GaussianCopulaSynthesizer)._fit data lib h).1._model) ∧
    (∃ m, (s._fit data lib h).1._model = some m ∧
      m.distribution = fitDistributions s data.columns) ∧
    (lib.fitFails (fitDistributions s data.columns) data = true →
      (s._fit data lib h).2.2 = some .libraryFitError ∧
      (s._fit data lib h).1._fitted = s._fitted ∧
      ∀ n cond, exErr ((s._fit data lib h).1._sample n cond) = true) ∧
    (lib.fitFails (fitDistributions s data.columns) data = false →
      (s._fit data lib h).2.2 = none) := by
  unfold GaussianCopulaSynthesizer._fit GaussianMultivariate.fit
  cases hfail : lib.fitFails (fitDistributions s data.columns) data with
  | true =>
    simp [fitDistributions_model_indep, hfail, GaussianCopulaSynthesizer._sample,
      GaussianMultivariate.sample, exErr]
  | false =>
    simp [fitDistributions_model_indep, hfail, GaussianCopulaSynthesizer._sample,
      GaussianMultivariate.sample, exErr]

/-- Witness for C8: evaluation on a concrete instance with an oracle whose
fit always fails — the error is reported, the fitted flag stays unset, and
sampling on the post-state fails. -/
theorem C8_witness :
    ((sampleSynthAB._fit xData failLib Heap.empty).2.2 = some .libraryFitError ∧
      (sampleSynthAB._fit xData failLib Heap.empty).1._fitted = sampleSynthAB._fitted ∧
      ∀ n cond, exErr ((sampleSynthAB._fit xData failLib Heap.empty).1._sample n cond) = true) ∧
    ((sampleSynthAB._fit xData xLib Heap.empty).2.2 = none) :=
  ⟨(C8_theorem sampleSynthAB xData failLib Heap.empty).2.2.1 (by decide),
   (C8_theorem sampleSynthAB xData xLib Heap.empty).2.2.2 (by decide)⟩

/-! ## Claim C9 -/

/-- C9: when every mapped column exists in the metadata, the hook — which
only reads the instance, never writes it — returns exactly one advisory
warning per mapping entry whose column is categorical and whose assigned
transformer is a `OneHotEncoder`, in mapping order, and fails for no
entry. -/
theorem C9_theorem (s : GaussianCopulaSynthesizer)
    (column_name_to_transformer : List (String × Transformer))
    (hknown : ∀ p ∈ column_name_to_transformer,
      (s.metadata._columns.lookup (p : String × Transformer).1).isSome = true) :
    s._warn_for_update_transformers column_name_to_transformer =
      .ok ((column_name_to_transformer.filter (warnTriggers s)).map
        fun p => oneHotWarning p.1) := by
  induction column_name_to_transformer with
  | nil => rfl
  | cons p rest ih =>
    obtain ⟨column, transformer⟩ := p
    have hc := hknown (column, transformer) (List.mem_cons_self _ _)
    have hrest := ih fun q hq => hknown q (List.mem_cons_of_mem _ hq)
    cases hl : s.metadata._columns.lookup column with
    | none => rw [hl] at hc; simp at hc
    | some sdtype =>
      simp only [GaussianCopulaSynthesizer._warn_for_update_transformers, hl, hrest]
      by_cases hcat : sdtype = "categorical" ∧ transformer = .OneHotEncoder
      · rw [if_pos hcat]
        obtain ⟨h1, h2⟩ := hcat
        subst h1
        subst h2
        simp [List.filter_cons, warnTriggers, hl]
      · rw [if_neg hcat]
        have hwt : warnTriggers s (column, transformer) = false := by
          unfold warnTriggers
          rw [hl]
          rcases not_and_or.mp hcat with hA | hB
          · simp [hA]
          · simp [hB]
        simp [List.filter_cons, hwt]

/-- Witness for C9: on a concrete mapping, warnings are emitted for
exactly the two categorical columns assigned a `OneHotEncoder`, in
order. -/
theorem C9_witness :
    wSynth._warn_for_update_transformers
      [("c", .OneHotEncoder), ("a", .FloatFormatter),
       ("d", .OneHotEncoder), ("c", .LabelEncoder)] =
      .ok [oneHotWarning "c", oneHotWarning "d"] :=
  (C9_theorem wSynth
    [("c", .OneHotEncoder), ("a", .FloatFormatter),
     ("d", .OneHotEncoder), ("c", .LabelEncoder)] (by decide)).trans (by rfl)

/-! ## Heap lemmas for the deep-copy claims -/

theorem Heap.read_alloc_self (h : Heap) (d : ParamDict) :
    ((h.alloc d).1).read (h.alloc d).2 = some d := by
  simp [Heap.alloc, Heap.read, List.lookup_cons]

theorem Heap.read_alloc_lt (h : Heap) (d : ParamDict) (a : Addr)
    (ha : a < h.next) : ((h.alloc d).1).read a = h.read a := by
  simp only [Heap.alloc, Heap.read, List.lookup_cons]
  rw [show (a == h.next) = false from beq_false_of_ne (Nat.ne_of_lt ha)]

theorem Heap.alloc_next (h : Heap) (d : ParamDict) :
    ((h.alloc d).1).next = h.next + 1 := rfl

theorem Heap.read_write_ne (h : Heap) (b : Addr) (d : ParamDict) (a : Addr)
    (hab : a ≠ b) : (h.write b d).read a = h.read a := by
  unfold Heap.write Heap.read
  simp only
  induction h.mem with
  | nil => rfl
  | cons p rest ih =>
    obtain ⟨k, v⟩ := p
    by_cases hk : k = b
    · subst hk
      simp only [List.map_cons, eq_self_iff_true, if_true, List.lookup_cons,
        show (a == k) = false from beq_false_of_ne hab]
      exact ih
    · simp only [List.map_cons, if_neg hk, List.lookup_cons]
      cases hak : a == k with
      | true => rfl
      | false => exact ih

theorem Heap.write_next (h : Heap) (b : Addr) (d : ParamDict) :
    (h.write b d).next = h.next := rfl

theorem deepcopyAddrs_next_le (l : List Addr) :
    ∀ h : Heap, h.next ≤ ((deepcopyAddrs h l).1).next := by
  induction l with
  | nil => intro h; exact Nat.le_refl _
  | cons a rest ih =>
    intro h
    simp only [deepcopyAddrs]
    exact le_trans (Nat.le_succ _) (ih ((h.alloc ((h.read a).getD default)).1))

theorem deepcopyAddrs_read_preserved (l : List Addr) :
    ∀ (h : Heap) (a : Addr), a < h.next →
      ((deepcopyAddrs h l).1).read a = h.read a := by
  induction l with
  | nil => intro h a _; rfl
  | cons b rest ih =>
    intro h a ha
    simp only [deepcopyAddrs]
    rw [ih _ a (lt_of_lt_of_le ha (Nat.le_succ _))]
    exact Heap.read_alloc_lt h _ a ha

theorem deepcopyAddrs_fresh (l : List Addr) :
    ∀ h : Heap, ∀ b ∈ (deepcopyAddrs h l).2,
      h.next ≤ b ∧ b < ((deepcopyAddrs h l).1).next := by
  induction l with
  | nil => intro h b hb; simp [deepcopyAddrs] at hb
  | cons a rest ih =>
    intro h b hb
    simp only [deepcopyAddrs, List.mem_cons] at hb
    rcases hb with rfl | hb
    · refine ⟨Nat.le_refl _, ?_⟩
      show (h.alloc ((h.read a).getD default)).2 < (deepcopyAddrs h (a :: rest)).1.next
      simp only [deepcopyAddrs]
      exact lt_of_lt_of_le (Nat.lt_succ_self h.next)
        (deepcopyAddrs_next_le rest ((h.alloc ((h.read a).getD default)).1))
    · obtain ⟨hb1, hb2⟩ := ih ((h.alloc ((h.read a).getD default)).1) b hb
      refine ⟨le_trans (Nat.le_succ _) hb1, ?_⟩
      show b < (deepcopyAddrs h (a :: rest)).1.next
      simp only [deepcopyAddrs]
      exact hb2

/-- Rendering the freshly built report reads back, from the post-copy
heap, exactly the parameter dictionaries the model's own addresses held in
the pre-copy heap. -/
theorem deepcopy_zip_render (s : GaussianCopulaSynthesizer)
    (cells : List (String × Addr)) :
    ∀ h : Heap, (∀ a ∈ cells.map Prod.snd, a < h.next) →
      renderResult (deepcopyAddrs h (cells.map Prod.snd)).1
        (((cells.map Prod.fst).zip (deepcopyAddrs h (cells.map Prod.snd)).2).map
          (fun p => (p.1, { distribution := pyGetDistribution s p.1
                            learned_parameters := p.2 }))) =
      cells.map fun q =>
        (q.1, pyGetDistribution s q.1, ((h.read q.2).getD default).fields) := by
  induction cells with
  | nil => intro h _; rfl
  | cons q rest ih =>
    intro h hv
    obtain ⟨c, a⟩ := q
    have hva : a < h.next := hv a (by simp)
    simp only [List.map_cons, deepcopyAddrs, List.zip_cons_cons, renderResult,
      List.map_cons]
    congr 1
    · have hread : ((deepcopyAddrs ((h.alloc ((h.read a).getD default)).1)
          (rest.map Prod.snd)).1).read (h.alloc ((h.read a).getD default)).2 =
          some ((h.read a).getD default) := by
        rw [deepcopyAddrs_read_preserved (rest.map Prod.snd) _ _
          (by rw [Heap.alloc_next]; exact Nat.lt_succ_self _)]
        exact Heap.read_alloc_self h _
      rw [hread, Option.getD_some]
    · have ihr := ih ((h.alloc ((h.read a).getD default)).1)
        (fun a1 ha1 => lt_of_lt_of_le (hv a1 (by simp [ha1])) (Nat.le_succ _))
      simp only [renderResult] at ihr
      rw [ihr]
      refine List.map_congr_left fun q1 hq1 => ?_
      rw [Heap.read_alloc_lt h _ _ (hv q1.2 (by
        simp only [List.map_cons, List.mem_cons]
        exact Or.inr (List.mem_map_of_mem Prod.snd hq1)))]

/-- The structural value of any successful report equals `baseRender` at
the pre-call heap. -/
theorem renderResult_eq_baseRender {s : GaussianCopulaSynthesizer}
    {h h' : Heap} {res : List (String × LearnedEntry)}
    (hv : AddrsValid s h)
    (hcall : s.get_learned_distributions h = .ok (h', res)) :
    renderResult h' res = baseRender s h := by
  obtain ⟨hft, m, cells, hm, hfc, hh', hres⟩ := get_learned_ok_inv hcall
  subst hh'
  subst hres
  rw [deepcopy_zip_render s cells h (fun a ha => hv a (by simp [modelAddrs, hm, hfc, ha]))]
  simp [baseRender, hm, hfc]

/-- On a fitted instance the report succeeds whatever the heap: the heap
only feeds the deep copy. -/
theorem reportValue_ok {s : GaussianCopulaSynthesizer}
    {m : GaussianMultivariate} {cells : List (String × Addr)}
    (hft : s._fitted = true) (hm : s._model = some m)
    (hfc : m.fittedColumns = some cells) :
    ∀ h0 : Heap, ∃ h' res, s.get_learned_distributions h0 = .ok (h', res) := by
  intro h0
  unfold GaussianCopulaSynthesizer.get_learned_distributions
  rw [if_neg (by rw [hft]; simp)]
  simp only [hm, GaussianMultivariate.to_dict, hfc, Option.map_some']
  exact ⟨_, _, rfl⟩

/-! ## Claim C5 -/

/-- C5: for every fitted instance (with a well-formed heap), a successful
report carries an entry for every modeled column; no entry's
learned-parameter dictionary is one of the model's internal dictionaries;
and overwriting any returned dictionary changes neither the model's own
dictionaries nor the structural value of a subsequent call. -/
theorem C5_theorem (s : GaussianCopulaSynthesizer) (h h' : Heap)
    (res : List (String × LearnedEntry))
    (hv : AddrsValid s h)
    (hcall : s.get_learned_distributions h = .ok (h', res)) :
    res.map Prod.fst = modelColumns s ∧
    (∀ p ∈ res, (p : String × LearnedEntry).2.learned_parameters ∉ modelAddrs s) ∧
    (∀ p ∈ res, ∀ d : ParamDict,
      (∀ a ∈ modelAddrs s,
        (h'.write ((p : String × LearnedEntry).2.learned_parameters) d).read a
          = h'.read a) ∧
      reportValue s (h'.write (p.2.learned_parameters) d) = reportValue s h') := by
  obtain ⟨hft, m, cells, hm, hfc, hh', hres⟩ := get_learned_ok_inv hcall
  have hcopy : ∀ p ∈ res, (p : String × LearnedEntry).2.learned_parameters ∈
      (deepcopyAddrs h (cells.map Prod.snd)).2 := by
    intro p hp
    rw [hres] at hp
    simp only [List.mem_map] at hp
    obtain ⟨q1, hq1, hpq⟩ := hp
    rw [← hpq]
    exact (List.of_mem_zip hq1).2
  have hfreshness : ∀ p ∈ res, h.next ≤
      (p : String × LearnedEntry).2.learned_parameters := by
    intro p hp
    exact (deepcopyAddrs_fresh (cells.map Prod.snd) h _ (hcopy p hp)).1
  refine ⟨(get_learned_ok_shape hcall).1, ?_, ?_⟩
  · intro p hp hmem
    exact absurd (hv _ hmem) (Nat.not_lt.mpr (hfreshness p hp))
  · intro p hp d
    have hne : ∀ a ∈ modelAddrs s, a ≠ p.2.learned_parameters := by
      intro a hmem heq
      exact absurd (hv _ hmem) (Nat.not_lt.mpr (heq ▸ hfreshness p hp))
    have hpres : ∀ a ∈ modelAddrs s,
        (h'.write (p.2.learned_parameters) d).read a = h'.read a := by
      intro a hmem
      exact Heap.read_write_ne h' _ d a (hne a hmem)
    refine ⟨hpres, ?_⟩
    have hvh' : AddrsValid s h' := by
      intro a hmem
      subst hh'
      exact lt_of_lt_of_le (hv a hmem) (deepcopyAddrs_next_le _ _)
    have hvw : AddrsValid s (h'.write (p.2.learned_parameters) d) := by
      intro a hmem
      rw [Heap.write_next]
      exact hvh' a hmem
    obtain ⟨h2, r2, hc2⟩ := reportValue_ok hft hm hfc
      (h'.write (p.2.learned_parameters) d)
    obtain ⟨h3, r3, hc3⟩ := reportValue_ok hft hm hfc h'
    have hbase : baseRender s (h'.write (p.2.learned_parameters) d) =
        baseRender s h' := by
      simp only [baseRender, hm, hfc]
      refine List.map_congr_left fun q1 hq1 => ?_
      rw [hpres q1.2 (by
        simp only [modelAddrs, hm, hfc, List.mem_map]
        exact ⟨q1, hq1, rfl⟩)]
    simp only [reportValue, hc2, hc3,
      renderResult_eq_baseRender hvw hc2, renderResult_eq_baseRender hvh' hc3, hbase]

/-! ## Claim C6 -/

/-- C6: calling `get_learned_distributions` twice on a fitted instance
without an intervening fit returns structurally equal reports (the copies
live at different fresh addresses, but render to the same value). -/
theorem C6_theorem (s : GaussianCopulaSynthesizer) (h h1 h2 : Heap)
    (r1 r2 : List (String × LearnedEntry))
    (hv : AddrsValid s h)
    (hc1 : s.get_learned_distributions h = .ok (h1, r1))
    (hc2 : s.get_learned_distributions h1 = .ok (h2, r2)) :
    renderResult h1 r1 = renderResult h2 r2 := by
  obtain ⟨hft, m, cells, hm, hfc, hh1, hres⟩ := get_learned_ok_inv hc1
  have hvh1 : AddrsValid s h1 := by
    intro a hmem
    subst hh1
    exact lt_of_lt_of_le (hv a hmem) (deepcopyAddrs_next_le _ _)
  rw [renderResult_eq_baseRender hv hc1, renderResult_eq_baseRender hvh1 hc2]
  simp only [baseRender, hm, hfc]
  refine List.map_congr_left fun q1 hq1 => ?_
  subst hh1
  rw [deepcopyAddrs_read_preserved _ _ _ (hv q1.2 (by
    simp only [modelAddrs, hm, hfc, List.mem_map]
    exact ⟨q1, hq1, rfl⟩))]

/-- Witness for C5: evaluation on the fitted concrete instance — the
report covers the modeled column, its parameter dictionary is not the
model's, and overwriting it changes neither the model reads nor a second
report. -/
theorem C5_witness :
    ([("x.value", xEntry)] : List (String × LearnedEntry)).map Prod.fst =
      modelColumns xSynth ∧
    (∀ p ∈ ([("x.value", xEntry)] : List (String × LearnedEntry)),
      (p : String × LearnedEntry).2.learned_parameters ∉ modelAddrs xSynth) ∧
    (∀ p ∈ ([("x.value", xEntry)] : List (String × LearnedEntry)), ∀ d : ParamDict,
      (∀ a ∈ modelAddrs xSynth,
        (xHeapOut.write ((p : String × LearnedEntry).2.learned_parameters) d).read a
          = xHeapOut.read a) ∧
      reportValue xSynth (xHeapOut.write (p.2.learned_parameters) d) =
        reportValue xSynth xHeapOut) :=
  C5_theorem xSynth xHeap xHeapOut [("x.value", xEntry)] (by decide) (by rfl)

/-- Witness for C6: the two successive concrete reports place their copies
at different addresses (1, then 2) yet render to the same structural
value. -/
theorem C6_witness :
    renderResult xHeapOut [("x.value", xEntry)] =
      renderResult ⟨3, [(2, ⟨[("loc", 3)]⟩), (1, ⟨[("loc", 3)]⟩), (0, ⟨[("loc", 3)]⟩)]⟩
        [("x.value", { distribution := .atom (.str "beta"), learned_parameters := 2 })] :=
  C6_theorem xSynth xHeap xHeapOut
    ⟨3, [(2, ⟨[("loc", 3)]⟩), (1, ⟨[("loc", 3)]⟩), (0, ⟨[("loc", 3)]⟩)]⟩
    [("x.value", xEntry)]
    [("x.value", { distribution := .atom (.str "beta"), learned_parameters := 2 })]
    (by decide) (by rfl) (by rfl)

end SDV
